import Mathlib

/-!
# Verification of thaliPeerPoolOneAtATime

A shallow embedding of
`thali/NextGeneration/thaliPeerPool/thaliPeerPoolOneAtATime.js`:
the peer-action admission pool with its WiFi (unconstrained-parallel)
replication-counter policy, the serial lane used by the public `enqueue`
path, the per-action connection-agent construction, and the pool's
start/stop state machine.

State is passed explicitly: the per-peer replication count is an
association list, the pool is a record, and observable effects
(logging, invoking an action's start/kill, constructing an agent,
resolving the serial-lane promise, a thrown ReferenceError) are
reified as events in a trace.
-/

namespace Thali

/-- A peer identifier, as returned by `peerAction.getPeerIdentifier()`. -/
abbrev PeerId := String

/-- The `_wifiReplicationCount` object: a mapping from peer identifier to
an admission count. An absent key models JavaScript `undefined`. -/
abbrev CountMap := List (PeerId × Nat)

/-- Property read `self._wifiReplicationCount[peerId]`: `none` models the
key being absent (`undefined`). -/
def lookupCount : CountMap → PeerId → Option Nat
  | [], _ => none
  | (q, n) :: rest, p => if q = p then some n else lookupCount rest p

/-- Property write `self._wifiReplicationCount[peerId] = n` (JavaScript
object keys are unique, so an existing entry is overwritten in place). -/
def setCount : CountMap → PeerId → Nat → CountMap
  | [], p, n => [(p, n)]
  | (q, k) :: rest, p, n =>
    if q = p then (p, n) :: rest else (q, k) :: setCount rest p n

/-- `delete self._wifiReplicationCount[peerId]`: removes the key. -/
def deleteCount : CountMap → PeerId → CountMap
  | [], _ => []
  | (q, k) :: rest, p =>
    if q = p then deleteCount rest p else (q, k) :: deleteCount rest p

/-- A peer action, per the `ThaliPeerPoolInterface` capability set used by
the pool: `getId`, `getPeerIdentifier`, `getActionType`, `getPskIdentity`,
`getPskKey`. `connectionType` records the network medium the action runs
over (the spec's "active medium"); the file under verification never reads
it, which is itself one of the verified facts. -/
structure PeerAction where
  id : Nat
  peerIdentifier : PeerId
  actionType : String
  connectionType : String
  pskIdentity : String
  pskKey : String
deriving DecidableEq

/-- Modelled from the spec: the replication action type tag
(`ThaliReplicationPeerAction.actionType`, defined outside the file under
verification). Only equality against it matters, so it is a distinguished
string constant. -/
def replicationActionType : String := "ReplicationAction"

/-- `ThaliPeerPoolOneAtATime.ERRORS.ENQUEUE_WHEN_STOPPED`. -/
def ENQUEUE_WHEN_STOPPED : String := "We are stopped"

/-- Modelled from the spec: the two configuration constants that
`_startAction` reads from `thaliConfig` (a module outside the file under
verification): the configured transport timeout and the fixed supported
PSK cipher set. Kept abstract as record fields so nothing depends on
their concrete values. -/
structure ThaliConfig where
  tcpTimeoutWifi : Nat
  supportedPskCiphers : String
deriving DecidableEq

/-- The option bag handed to `new ForeverAgent.SSL({...})`.
`maxSockets = none` models the JavaScript value `Infinity`
(unlimited total sockets). -/
structure AgentOptions where
  keepAlive : Bool
  keepAliveMsecs : Nat
  maxSockets : Option Nat
  maxFreeSockets : Nat
  ciphers : String
  pskIdentity : String
  pskKey : String
deriving DecidableEq

/-- The agent constructed at the top of `_startAction` (source lines
83–91), field for field. -/
def mkForeverAgentSSL (cfg : ThaliConfig) (a : PeerAction) : AgentOptions :=
  { keepAlive := true
    keepAliveMsecs := cfg.tcpTimeoutWifi / 2
    maxSockets := none
    maxFreeSockets := 256
    ciphers := cfg.supportedPskCiphers
    pskIdentity := a.pskIdentity
    pskKey := a.pskKey }

/-- Observable effects of the pool, reified as trace events. -/
inductive PoolEvent where
  /-- `new ForeverAgent.SSL({...})` executed for this action. -/
  | agentConstructed (actionId : Nat)
  /-- `peerAction.start(agent)` was invoked. -/
  | startInvoked (actionId : Nat)
  /-- `peerAction.kill()` was invoked by the pool. -/
  | killInvoked (actionId : Nat)
  /-- `logger.debug(msg)`. -/
  | logDebug (msg : String)
  /-- `logger.error(msg)`. -/
  | logErr (msg : String)
  /-- The serial-lane promise was resolved (`resolve(true)`). -/
  | resolvedTrue
  /-- Evaluation of an identifier bound in no enclosing scope threw a
  ReferenceError (strict mode). -/
  | threwReferenceError (name : String)
deriving DecidableEq

/-- Is the event an invocation of some action's start? -/
def isStartEvent : PoolEvent → Bool
  | .startInvoked _ => true
  | _ => false

/-- Is the event an invocation of some action's kill by the pool? -/
def isKillEvent : PoolEvent → Bool
  | .killInvoked _ => true
  | _ => false

/-- Is the event a connection-agent construction? -/
def isAgentEvent : PoolEvent → Bool
  | .agentConstructed _ => true
  | _ => false

/-- The result of one run of `_startAction` (source lines 82–102): the
agent it constructed and the events it produced. `startRejects` selects
whether `peerAction.start(actionAgent)` resolves or rejects; both
continuations only log and return null. -/
structure StartRun where
  agent : AgentOptions
  events : List PoolEvent
deriving DecidableEq

/-- `_startAction` (source lines 82–102): build the agent, invoke
`peerAction.start(actionAgent)`, and on settle log; no kill is performed
by either continuation. -/
def startAction (cfg : ThaliConfig) (a : PeerAction) (startRejects : Bool) :
    StartRun :=
  { agent := mkForeverAgentSSL cfg a
    events := [.agentConstructed a.id, .startInvoked a.id] ++
      (if startRejects
       then [.logDebug "action returned with error from start"]
       else [.logDebug "action returned successfully from start"]) }

/-- The result of one call of `_wifiEnqueue` (source lines 106–153).
`killedWithoutStart` records the `case 2` branch `return peerAction.kill()`
(the action's current, unwrapped kill invoked synchronously, no start);
`killWrapped` records whether the kill-decrementing wrapper was installed
on the action; `started = some r` records that `_startAction` ran with
result `r`. -/
structure WifiEnqueueRun where
  newCount : CountMap
  killedWithoutStart : Bool
  illegalCountLogged : Bool
  killWrapped : Bool
  started : Option StartRun
deriving DecidableEq

/-- `_wifiEnqueue` (source lines 106–153). Non-replication actions go
straight to `_startAction`. For replication actions the switch on the
peer's count admits at `undefined`/0 (set 1) and 1 (set 2), rejects at 2
by synchronously killing without starting, and on any other value logs an
error and falls through the switch (the JavaScript `default` case does not
return, so the action is still wrapped and started). Every admitted path
then monkey-patches `peerAction.kill` and calls `_startAction`. -/
def wifiEnqueue (cfg : ThaliConfig) (m : CountMap) (a : PeerAction)
    (startRejects : Bool) : WifiEnqueueRun :=
  if a.actionType ≠ replicationActionType then
    { newCount := m, killedWithoutStart := false, illegalCountLogged := false,
      killWrapped := false, started := some (startAction cfg a startRejects) }
  else
    match lookupCount m a.peerIdentifier with
    | none | some 0 =>
      { newCount := setCount m a.peerIdentifier 1,
        killedWithoutStart := false, illegalCountLogged := false,
        killWrapped := true, started := some (startAction cfg a startRejects) }
    | some 1 =>
      { newCount := setCount m a.peerIdentifier 2,
        killedWithoutStart := false, illegalCountLogged := false,
        killWrapped := true, started := some (startAction cfg a startRejects) }
    | some 2 =>
      { newCount := m, killedWithoutStart := true, illegalCountLogged := false,
        killWrapped := false, started := none }
    | some _ =>
      { newCount := m, killedWithoutStart := false, illegalCountLogged := true,
        killWrapped := true, started := some (startAction cfg a startRejects) }

/-- The result of one invocation of the kill wrapper that `_wifiEnqueue`
installs (source lines 133–150): how the count map changed, whether the
`default` branch logged the count error, and whether
`originalKill.apply(this, arguments)` ran (it always does — the call
sits after the switch, unconditionally). -/
structure WrappedKillRun where
  newCount : CountMap
  countErrorLogged : Bool
  originalKillInvoked : Bool
deriving DecidableEq

/-- The patched `peerAction.kill` (source lines 134–150): switch on the
peer's current count — 1 deletes the key, 2 sets it to 1, anything else
(including an absent key) logs an error and leaves the map alone — then
unconditionally invoke the original kill. -/
def wrappedKill (m : CountMap) (p : PeerId) : WrappedKillRun :=
  match lookupCount m p with
  | some 1 =>
    { newCount := deleteCount m p, countErrorLogged := false,
      originalKillInvoked := true }
  | some 2 =>
    { newCount := setCount m p 1, countErrorLogged := false,
      originalKillInvoked := true }
  | _ =>
    { newCount := m, countErrorLogged := true, originalKillInvoked := true }

/-- The pool's state: the `_stopped` flag, the pending closures of the
`_serialPromiseQueue` (identified by the action each closure captured, in
FIFO order), and the `_wifiReplicationCount` map. -/
structure PoolState where
  stopped : Bool
  serialQueue : List PeerAction
  wifiReplicationCount : CountMap
deriving DecidableEq

/-- The constructor (source lines 70–75): `_stopped = true`, a fresh
`PromiseQueue`, an empty count map. -/
def initialPool : PoolState :=
  { stopped := true, serialQueue := [], wifiReplicationCount := [] }

/-- What `enqueue` returns to its caller: a synchronous throw, or normal
return. -/
inductive EnqueueOutcome where
  | threw (msg : String)
  | ok
deriving DecidableEq

/-- `enqueue` (source lines 179–208): throw `ENQUEUE_WHEN_STOPPED` if
`_stopped`; otherwise call the superclass enqueue and append the cleanup
closure to `_serialPromiseQueue`, returning immediately. The superclass
enqueue is outside the file under verification; modelled from the spec:
it registers the action and returns without starting it ("routes `action`
… and returns immediately (non-blocking)"). Note the body never consults
the action's connection type and never calls `_wifiEnqueue` or
`_bluetoothEnqueue`. -/
def enqueue (s : PoolState) (a : PeerAction) : PoolState × EnqueueOutcome :=
  if s.stopped then (s, .threw ENQUEUE_WHEN_STOPPED)
  else ({ s with serialQueue := s.serialQueue ++ [a] }, .ok)

/-- `start` (source lines 210–214): clear `_stopped` and delegate to the
superclass (which, per the spec, only enables admission). -/
def poolStart (s : PoolState) : PoolState := { s with stopped := false }

/-- `stop` (source lines 222–226): set `_stopped`, reset
`_wifiReplicationCount` to a fresh empty object, delegate to the
superclass. The superclass stop is outside the file under verification;
modelled from the spec: it "must not by itself kill in-flight actions"
and only stops admission, so this step emits no events and leaves the
pending serial-lane closures as they are. -/
def poolStop (s : PoolState) : PoolState × List PoolEvent :=
  ({ s with stopped := true, wifiReplicationCount := [] }, [])

/-- Identifiers bound by the serial-lane closure itself (source line 193):
its two parameters. -/
def closureOwnBindings : List String := ["resolve", "reject"]

/-- Identifiers bound in the enclosing `enqueue` function body (source
lines 179–208): the parameter `peerAction` and the local `var result`. -/
def enqueueScopeBindings : List String := ["peerAction", "result"]

/-- Identifiers bound at module scope (source lines 3–12 and the
constructor function declaration, line 70). The file is strict mode, so
there are no implicit globals. -/
def moduleScopeBindings : List String :=
  ["util", "ThaliPeerPoolInterface", "thaliConfig", "ForeverAgent",
   "logger", "Utils", "Promise", "PromiseQueue",
   "ThaliReplicationPeerAction", "assert", "ThaliPeerPoolOneAtATime"]

/-- The full scope chain visible from inside the serial-lane closure. -/
def serialClosureScope : List String :=
  closureOwnBindings ++ enqueueScopeBindings ++ moduleScopeBindings

/-- One run of the closure `enqueue` appends to `_serialPromiseQueue`
(source lines 193–204): log "Peer Action Started", then evaluate
`peerAction.start(actionAgent)`. Evaluating the argument resolves the
identifier `actionAgent` against the scope chain; if it is bound the
start/catch/then chain of the source runs (log on rejection, then log
"Peer Action Stopped", kill, resolve(true)); if it is unbound, strict
mode throws a ReferenceError and nothing further in the closure runs. -/
def runSerialClosure (a : PeerAction) (startRejects : Bool) :
    List PoolEvent :=
  .logDebug (toString a.id ++ " - Peer Action Started") ::
  (if serialClosureScope.contains "actionAgent" then
    .startInvoked a.id ::
      ((if startRejects then [.logDebug "Got err"] else []) ++
       [.logDebug (toString a.id ++ " - Peer Action Stopped"),
        .killInvoked a.id, .resolvedTrue])
   else
    [.threwReferenceError "actionAgent"])

/-- Modelled from the spec: the `PromiseQueue` module is outside the file
under verification; per the spec's Serial Lane it runs the queued closures
strictly one at a time in FIFO order, advancing when the current closure
settles (resolves, rejects, or throws) and skipping none. The lane's
trace is therefore the concatenation of the closures' traces in
submission order. -/
def runSerialLane (acts : List PeerAction) (startRejects : Bool) :
    List PoolEvent :=
  match acts with
  | [] => []
  | a :: rest => runSerialClosure a startRejects ++ runSerialLane rest startRejects

/-! ## Basic lemmas about the count map -/

/-- Writing a peer's count and reading it back yields that count. -/
theorem lookupCount_setCount_self (m : CountMap) (p : PeerId) (n : Nat) :
    lookupCount (setCount m p n) p = some n := by
  induction m with
  | nil => simp [setCount, lookupCount]
  | cons hd tl ih =>
    obtain ⟨q, k⟩ := hd
    by_cases h : q = p
    · simp [setCount, lookupCount, h]
    · simp [setCount, lookupCount, h, ih]

/-- Deleting a peer's count leaves the key absent. -/
theorem lookupCount_deleteCount_self (m : CountMap) (p : PeerId) :
    lookupCount (deleteCount m p) p = none := by
  induction m with
  | nil => simp [deleteCount, lookupCount]
  | cons hd tl ih =>
    obtain ⟨q, k⟩ := hd
    by_cases h : q = p
    · simp [deleteCount, h, ih]
    · simp [deleteCount, lookupCount, h, ih]

/-! ## Concrete fixtures used by witnesses and counterexamples -/

/-- A concrete configuration (values are irrelevant to every theorem, which
stay parametric in the config). -/
def cfgEx : ThaliConfig :=
  { tcpTimeoutWifi := 30000, supportedPskCiphers := "PSK-CIPHERS" }

/-- A concrete replication action, parameterised by id, peer and medium. -/
def repActionFor (n : Nat) (p : PeerId) (medium : String) : PeerAction :=
  { id := n, peerIdentifier := p, actionType := replicationActionType,
    connectionType := medium, pskIdentity := "psk-id", pskKey := "psk-key" }

/-- A concrete non-replication (notification) action. -/
def notifActionEx : PeerAction :=
  { id := 7, peerIdentifier := "p9", actionType := "GetRequestBeacon",
    connectionType := "WIFI", pskIdentity := "psk-id-n", pskKey := "psk-key-n" }

/-! ## Claim theorems -/

/-- C8: on the public enqueue path the serialized execution closure applies
the action's start to the identifier `actionAgent`, which is bound in no
enclosing scope (not in the closure's parameters, not in `enqueue`'s body,
not at module scope); consequently no connection agent is constructed on
this path, the closure throws a ReferenceError instead of performing a
successful start-with-agent, and the closure's subsequent kill and
resolve(true) calls are never reached. -/
theorem c8_serial_closure_actionAgent_unbound (a : PeerAction)
    (startRejects : Bool) :
    serialClosureScope.contains "actionAgent" = false ∧
    runSerialClosure a startRejects =
      [.logDebug (toString a.id ++ " - Peer Action Started"),
       .threwReferenceError "actionAgent"] ∧
    (runSerialClosure a startRejects).any isAgentEvent = false ∧
    (runSerialClosure a startRejects).any isStartEvent = false ∧
    (runSerialClosure a startRejects).any isKillEvent = false ∧
    PoolEvent.resolvedTrue ∉ runSerialClosure a startRejects := by
  have hmem : "actionAgent" ∉ serialClosureScope := by decide
  refine ⟨by decide, ?_, ?_, ?_, ?_, ?_⟩ <;>
    simp [runSerialClosure, hmem, isAgentEvent, isStartEvent, isKillEvent]

/-- C6 (code bug): running the serial lane on three queued actions never
invokes any action's start and never invokes any kill — each closure
throws a ReferenceError on the unbound `actionAgent` right after logging —
so no action ever settles, is killed, or is followed by the next one
starting, contrary to the claimed start/settle/kill ordering. -/
theorem c6_serial_lane_never_starts_or_kills :
    runSerialLane
      [repActionFor 1 "p1" "TCP_NATIVE", repActionFor 2 "p2" "TCP_NATIVE",
       repActionFor 3 "p1" "TCP_NATIVE"] false =
      [.logDebug "1 - Peer Action Started", .threwReferenceError "actionAgent",
       .logDebug "2 - Peer Action Started", .threwReferenceError "actionAgent",
       .logDebug "3 - Peer Action Started",
       .threwReferenceError "actionAgent"] ∧
    (runSerialLane
      [repActionFor 1 "p1" "TCP_NATIVE", repActionFor 2 "p2" "TCP_NATIVE",
       repActionFor 3 "p1" "TCP_NATIVE"] false).any isStartEvent = false ∧
    (runSerialLane
      [repActionFor 1 "p1" "TCP_NATIVE", repActionFor 2 "p2" "TCP_NATIVE",
       repActionFor 3 "p1" "TCP_NATIVE"] false).any isKillEvent = false := by
  decide

/-- C1 (code bug): on the `_wifiEnqueue`/`_startAction` admission path the
pool invokes the action's start, start settles (whether it resolves or
rejects), and the pool never invokes kill; on the public enqueue path the
serialized closure throws on the unbound `actionAgent`, so there its start
is never invoked and its kill is never invoked either. In neither case is
kill invoked exactly once after start settles. -/
theorem c1_kill_not_invoked_when_start_settles :
    ((startAction cfgEx notifActionEx false).events.any isStartEvent = true ∧
     (startAction cfgEx notifActionEx false).events.any isKillEvent = false) ∧
    ((startAction cfgEx notifActionEx true).events.any isStartEvent = true ∧
     (startAction cfgEx notifActionEx true).events.any isKillEvent = false) ∧
    (wifiEnqueue cfgEx [] notifActionEx false).started =
      some (startAction cfgEx notifActionEx false) ∧
    (runSerialClosure notifActionEx false).any isStartEvent = false ∧
    (runSerialClosure notifActionEx false).any isKillEvent = false := by
  decide

/-- C4: enqueue while the pool is stopped (the initial state included)
throws the ENQUEUE_WHEN_STOPPED error synchronously and leaves the state
untouched — in particular the action is never appended to the serial lane,
so its start can never be invoked; after `start()` has run, enqueue no
longer throws this error. -/
theorem c4_enqueue_when_stopped_throws (s : PoolState) (a : PeerAction)
    (h : s.stopped = true) :
    enqueue s a = (s, .threw ENQUEUE_WHEN_STOPPED) ∧
    initialPool.stopped = true ∧
    (enqueue (poolStart s) a).2 ≠ EnqueueOutcome.threw ENQUEUE_WHEN_STOPPED := by
  refine ⟨by simp [enqueue, h], rfl, by simp [enqueue, poolStart]⟩

/-- Witness for C4 at the never-started initial pool and a concrete
action. -/
theorem c4_enqueue_when_stopped_throws_witness :
    initialPool.stopped = true ∧
    (enqueue initialPool (repActionFor 1 "p1" "WIFI") =
      (initialPool, .threw ENQUEUE_WHEN_STOPPED) ∧
     initialPool.stopped = true ∧
     (enqueue (poolStart initialPool) (repActionFor 1 "p1" "WIFI")).2 ≠
       EnqueueOutcome.threw ENQUEUE_WHEN_STOPPED) :=
  ⟨rfl, c4_enqueue_when_stopped_throws initialPool
    (repActionFor 1 "p1" "WIFI") rfl⟩

/-- C5 counterexample: a replication action on the WiFi (unconstrained
parallel) medium, submitted to the public enqueue while running, is NOT
handled by the Replication Counter path — the per-peer count stays absent
instead of becoming 1 and the action is appended to the serial lane — and
an identical action on the Bluetooth medium is handled the same way, so
which path handles an action does not depend on the medium. -/
theorem c5_enqueue_ignores_medium_counterexample :
    (enqueue (poolStart initialPool) (repActionFor 11 "p1" "WIFI")).1.serialQueue =
      [repActionFor 11 "p1" "WIFI"] ∧
    (enqueue (poolStart initialPool)
      (repActionFor 11 "p1" "WIFI")).1.wifiReplicationCount = [] ∧
    lookupCount (enqueue (poolStart initialPool)
      (repActionFor 11 "p1" "WIFI")).1.wifiReplicationCount "p1" = none ∧
    (enqueue (poolStart initialPool) (repActionFor 11 "p1" "WIFI")).2 =
      EnqueueOutcome.ok ∧
    (enqueue (poolStart initialPool)
      (repActionFor 12 "p1" "TCP_NATIVE")).1.serialQueue =
      [repActionFor 12 "p1" "TCP_NATIVE"] ∧
    (enqueue (poolStart initialPool)
      (repActionFor 12 "p1" "TCP_NATIVE")).1.wifiReplicationCount = [] := by
  decide

/-- C5 amended: for every action submitted via enqueue while running, the
pool appends the action to the serial lane and returns normally,
regardless of the action's medium; the replication-count state is left
untouched, i.e. the medium-specific Replication Counter path is not taken
by enqueue. -/
theorem c5_enqueue_always_serial_lane (s : PoolState) (a : PeerAction)
    (h : s.stopped = false) :
    (enqueue s a).1.serialQueue = s.serialQueue ++ [a] ∧
    (enqueue s a).1.wifiReplicationCount = s.wifiReplicationCount ∧
    (enqueue s a).1.stopped = s.stopped ∧
    (enqueue s a).2 = EnqueueOutcome.ok := by
  simp [enqueue, h]

/-- Witness for C5's amended claim on a running pool and a concrete WiFi
replication action. -/
theorem c5_enqueue_always_serial_lane_witness :
    (poolStart initialPool).stopped = false ∧
    ((enqueue (poolStart initialPool) (repActionFor 11 "p1" "WIFI")).1.serialQueue =
      (poolStart initialPool).serialQueue ++ [repActionFor 11 "p1" "WIFI"] ∧
     (enqueue (poolStart initialPool)
       (repActionFor 11 "p1" "WIFI")).1.wifiReplicationCount =
       (poolStart initialPool).wifiReplicationCount ∧
     (enqueue (poolStart initialPool) (repActionFor 11 "p1" "WIFI")).1.stopped =
       (poolStart initialPool).stopped ∧
     (enqueue (poolStart initialPool) (repActionFor 11 "p1" "WIFI")).2 =
       EnqueueOutcome.ok) :=
  ⟨rfl, c5_enqueue_always_serial_lane (poolStart initialPool)
    (repActionFor 11 "p1" "WIFI") rfl⟩

/-- C7: `stop()` sets the stopped flag and resets every per-peer
replication count to absent (the empty mapping), whatever state the pool
is in — in-flight work included; it emits no events at all (in particular
it kills no action) and leaves the pending serial-lane entries untouched;
stopping an already-stopped pool changes nothing further; and a subsequent
`start()` still sees the empty counter mapping. -/
theorem c7_stop_resets_counts_and_kills_nothing (s : PoolState) :
    (poolStop s).1.stopped = true ∧
    (poolStop s).1.wifiReplicationCount = [] ∧
    (poolStop s).1.serialQueue = s.serialQueue ∧
    (poolStop s).2 = [] ∧
    (poolStop s).2.any isKillEvent = false ∧
    poolStop (poolStop s).1 = poolStop s ∧
    (poolStart (poolStop s).1).wifiReplicationCount = [] := by
  refine ⟨rfl, rfl, rfl, rfl, rfl, rfl, rfl⟩

/-- C2: under the WiFi (unconstrained-parallel) policy, three replication
actions for the same peer submitted in immediate succession: the first is
admitted (absent/0 becomes 1) and started, the second is admitted (1
becomes 2) and started, and the third is rejected — its kill is invoked
synchronously, `_startAction` never runs for it, and the peer's count
stays 2. -/
theorem c2_third_replication_rejected (cfg : ThaliConfig) (m : CountMap)
    (p : PeerId) (a1 a2 a3 : PeerAction) (r1 r2 r3 : Bool)
    (ht1 : a1.actionType = replicationActionType)
    (ht2 : a2.actionType = replicationActionType)
    (ht3 : a3.actionType = replicationActionType)
    (hp1 : a1.peerIdentifier = p) (hp2 : a2.peerIdentifier = p)
    (hp3 : a3.peerIdentifier = p)
    (h0 : lookupCount m p = none ∨ lookupCount m p = some 0) :
    lookupCount (wifiEnqueue cfg m a1 r1).newCount p = some 1 ∧
    (wifiEnqueue cfg m a1 r1).started = some (startAction cfg a1 r1) ∧
    (wifiEnqueue cfg m a1 r1).killedWithoutStart = false ∧
    lookupCount
      (wifiEnqueue cfg (wifiEnqueue cfg m a1 r1).newCount a2 r2).newCount p =
      some 2 ∧
    (wifiEnqueue cfg (wifiEnqueue cfg m a1 r1).newCount a2 r2).started =
      some (startAction cfg a2 r2) ∧
    (wifiEnqueue cfg (wifiEnqueue cfg m a1 r1).newCount a2 r2).killedWithoutStart =
      false ∧
    (wifiEnqueue cfg
      (wifiEnqueue cfg (wifiEnqueue cfg m a1 r1).newCount a2 r2).newCount
      a3 r3).killedWithoutStart = true ∧
    (wifiEnqueue cfg
      (wifiEnqueue cfg (wifiEnqueue cfg m a1 r1).newCount a2 r2).newCount
      a3 r3).started = none ∧
    (wifiEnqueue cfg
      (wifiEnqueue cfg (wifiEnqueue cfg m a1 r1).newCount a2 r2).newCount
      a3 r3).newCount =
      (wifiEnqueue cfg (wifiEnqueue cfg m a1 r1).newCount a2 r2).newCount ∧
    lookupCount (wifiEnqueue cfg
      (wifiEnqueue cfg (wifiEnqueue cfg m a1 r1).newCount a2 r2).newCount
      a3 r3).newCount p = some 2 := by
  have h1 : wifiEnqueue cfg m a1 r1 =
      { newCount := setCount m p 1, killedWithoutStart := false,
        illegalCountLogged := false, killWrapped := true,
        started := some (startAction cfg a1 r1) } := by
    rcases h0 with h | h <;> simp [wifiEnqueue, ht1, hp1, h]
  have hl1 : lookupCount (setCount m p 1) p = some 1 :=
    lookupCount_setCount_self m p 1
  have h2 : wifiEnqueue cfg (setCount m p 1) a2 r2 =
      { newCount := setCount (setCount m p 1) p 2, killedWithoutStart := false,
        illegalCountLogged := false, killWrapped := true,
        started := some (startAction cfg a2 r2) } := by
    simp [wifiEnqueue, ht2, hp2, hl1]
  have hl2 : lookupCount (setCount (setCount m p 1) p 2) p = some 2 :=
    lookupCount_setCount_self (setCount m p 1) p 2
  have h3 : wifiEnqueue cfg (setCount (setCount m p 1) p 2) a3 r3 =
      { newCount := setCount (setCount m p 1) p 2, killedWithoutStart := true,
        illegalCountLogged := false, killWrapped := false,
        started := none } := by
    simp [wifiEnqueue, ht3, hp3, hl2]
  rw [h1]
  simp [h2, h3, hl1, hl2]

/-- Witness for C2: peer "p1", empty count map, three concrete replication
actions submitted back to back. -/
theorem c2_third_replication_rejected_witness :
    lookupCount ([] : CountMap) "p1" = none ∧
    (lookupCount (wifiEnqueue cfgEx []
        (repActionFor 1 "p1" "WIFI") false).newCount "p1" = some 1 ∧
     (wifiEnqueue cfgEx [] (repActionFor 1 "p1" "WIFI") false).started =
       some (startAction cfgEx (repActionFor 1 "p1" "WIFI") false) ∧
     (wifiEnqueue cfgEx [] (repActionFor 1 "p1" "WIFI") false).killedWithoutStart =
       false ∧
     lookupCount (wifiEnqueue cfgEx
        (wifiEnqueue cfgEx [] (repActionFor 1 "p1" "WIFI") false).newCount
        (repActionFor 2 "p1" "WIFI") false).newCount "p1" = some 2 ∧
     (wifiEnqueue cfgEx
        (wifiEnqueue cfgEx [] (repActionFor 1 "p1" "WIFI") false).newCount
        (repActionFor 2 "p1" "WIFI") false).started =
       some (startAction cfgEx (repActionFor 2 "p1" "WIFI") false) ∧
     (wifiEnqueue cfgEx
        (wifiEnqueue cfgEx [] (repActionFor 1 "p1" "WIFI") false).newCount
        (repActionFor 2 "p1" "WIFI") false).killedWithoutStart = false ∧
     (wifiEnqueue cfgEx
        (wifiEnqueue cfgEx
          (wifiEnqueue cfgEx [] (repActionFor 1 "p1" "WIFI") false).newCount
          (repActionFor 2 "p1" "WIFI") false).newCount
        (repActionFor 3 "p1" "WIFI") false).killedWithoutStart = true ∧
     (wifiEnqueue cfgEx
        (wifiEnqueue cfgEx
          (wifiEnqueue cfgEx [] (repActionFor 1 "p1" "WIFI") false).newCount
          (repActionFor 2 "p1" "WIFI") false).newCount
        (repActionFor 3 "p1" "WIFI") false).started = none ∧
     (wifiEnqueue cfgEx
        (wifiEnqueue cfgEx
          (wifiEnqueue cfgEx [] (repActionFor 1 "p1" "WIFI") false).newCount
          (repActionFor 2 "p1" "WIFI") false).newCount
        (repActionFor 3 "p1" "WIFI") false).newCount =
       (wifiEnqueue cfgEx
          (wifiEnqueue cfgEx [] (repActionFor 1 "p1" "WIFI") false).newCount
          (repActionFor 2 "p1" "WIFI") false).newCount ∧
     lookupCount (wifiEnqueue cfgEx
        (wifiEnqueue cfgEx
          (wifiEnqueue cfgEx [] (repActionFor 1 "p1" "WIFI") false).newCount
          (repActionFor 2 "p1" "WIFI") false).newCount
        (repActionFor 3 "p1" "WIFI") false).newCount "p1" = some 2) :=
  ⟨rfl, c2_third_replication_rejected cfgEx [] "p1"
    (repActionFor 1 "p1" "WIFI") (repActionFor 2 "p1" "WIFI")
    (repActionFor 3 "p1" "WIFI") false false false
    rfl rfl rfl rfl rfl rfl (Or.inl rfl)⟩

/-- C3: every replication action that the WiFi policy admits (i.e. does
not reject with a synchronous kill) gets the kill wrapper installed, and
that wrapper, whenever invoked, decrements the peer's count — some 1
becomes absent, some 2 becomes some 1 — while the original kill behaviour
still executes. -/
theorem c3_kill_wrapper_decrements_and_delegates (cfg : ThaliConfig)
    (m : CountMap) (a : PeerAction) (r : Bool)
    (hrep : a.actionType = replicationActionType)
    (hadm : (wifiEnqueue cfg m a r).killedWithoutStart = false) :
    (wifiEnqueue cfg m a r).killWrapped = true ∧
    (∀ m' : CountMap, lookupCount m' a.peerIdentifier = some 1 →
      lookupCount (wrappedKill m' a.peerIdentifier).newCount
        a.peerIdentifier = none ∧
      (wrappedKill m' a.peerIdentifier).originalKillInvoked = true) ∧
    (∀ m' : CountMap, lookupCount m' a.peerIdentifier = some 2 →
      lookupCount (wrappedKill m' a.peerIdentifier).newCount
        a.peerIdentifier = some 1 ∧
      (wrappedKill m' a.peerIdentifier).originalKillInvoked = true) := by
  refine ⟨?_, ?_, ?_⟩
  · rcases hcount : lookupCount m a.peerIdentifier with _ | n
    · simp [wifiEnqueue, hrep, hcount]
    · rcases n with _ | _ | _ | k
      · simp [wifiEnqueue, hrep, hcount]
      · simp [wifiEnqueue, hrep, hcount]
      · exact absurd hadm (by simp [wifiEnqueue, hrep, hcount])
      · simp [wifiEnqueue, hrep, hcount]
  · intro m' h1
    simp [wrappedKill, h1, lookupCount_deleteCount_self]
  · intro m' h2
    simp [wrappedKill, h2, lookupCount_setCount_self]

/-- Witness for C3 on a concrete admitted replication action, with
concrete count maps exercising both decrement cases of the wrapper. -/
theorem c3_kill_wrapper_decrements_and_delegates_witness :
    (repActionFor 1 "p1" "WIFI").actionType = replicationActionType ∧
    ((wifiEnqueue cfgEx [] (repActionFor 1 "p1" "WIFI") false).killWrapped = true ∧
     (∀ m' : CountMap,
       lookupCount m' (repActionFor 1 "p1" "WIFI").peerIdentifier = some 1 →
       lookupCount (wrappedKill m' (repActionFor 1 "p1" "WIFI").peerIdentifier).newCount
         (repActionFor 1 "p1" "WIFI").peerIdentifier = none ∧
       (wrappedKill m' (repActionFor 1 "p1" "WIFI").peerIdentifier).originalKillInvoked =
         true) ∧
     (∀ m' : CountMap,
       lookupCount m' (repActionFor 1 "p1" "WIFI").peerIdentifier = some 2 →
       lookupCount (wrappedKill m' (repActionFor 1 "p1" "WIFI").peerIdentifier).newCount
         (repActionFor 1 "p1" "WIFI").peerIdentifier = some 1 ∧
       (wrappedKill m' (repActionFor 1 "p1" "WIFI").peerIdentifier).originalKillInvoked =
         true)) :=
  ⟨rfl, c3_kill_wrapper_decrements_and_delegates cfgEx []
    (repActionFor 1 "p1" "WIFI") false rfl rfl⟩

/-- C9: the installed kill wrapper decrements the peer's count on every
invocation, not only the first: starting from count 2, a first invocation
leaves some 1, a second leaves the key absent (both without logging a
count error and both delegating to the original kill), and a third
invocation finds no count, only logs the count error, leaves the key
absent — and still runs the original kill. -/
theorem c9_wrapper_decrements_every_invocation (m : CountMap) (p : PeerId)
    (h : lookupCount m p = some 2) :
    lookupCount (wrappedKill m p).newCount p = some 1 ∧
    (wrappedKill m p).countErrorLogged = false ∧
    (wrappedKill m p).originalKillInvoked = true ∧
    lookupCount (wrappedKill (wrappedKill m p).newCount p).newCount p = none ∧
    (wrappedKill (wrappedKill m p).newCount p).countErrorLogged = false ∧
    (wrappedKill (wrappedKill m p).newCount p).originalKillInvoked = true ∧
    (wrappedKill
      (wrappedKill (wrappedKill m p).newCount p).newCount p).countErrorLogged =
      true ∧
    lookupCount (wrappedKill
      (wrappedKill (wrappedKill m p).newCount p).newCount p).newCount p =
      none ∧
    (wrappedKill
      (wrappedKill (wrappedKill m p).newCount p).newCount p).originalKillInvoked =
      true := by
  have h1 : wrappedKill m p =
      { newCount := setCount m p 1, countErrorLogged := false,
        originalKillInvoked := true } := by
    simp [wrappedKill, h]
  have hl1 : lookupCount (setCount m p 1) p = some 1 :=
    lookupCount_setCount_self m p 1
  have h2 : wrappedKill (setCount m p 1) p =
      { newCount := deleteCount (setCount m p 1) p, countErrorLogged := false,
        originalKillInvoked := true } := by
    simp [wrappedKill, hl1]
  have hl2 : lookupCount (deleteCount (setCount m p 1) p) p = none :=
    lookupCount_deleteCount_self (setCount m p 1) p
  have h3 : wrappedKill (deleteCount (setCount m p 1) p) p =
      { newCount := deleteCount (setCount m p 1) p, countErrorLogged := true,
        originalKillInvoked := true } := by
    simp [wrappedKill, hl2]
  rw [h1]
  simp [h2, h3, hl1, hl2]

/-- Witness for C9 on the concrete map where peer "p1" has count 2. -/
theorem c9_wrapper_decrements_every_invocation_witness :
    lookupCount [("p1", 2)] "p1" = some 2 ∧
    (lookupCount (wrappedKill [("p1", 2)] "p1").newCount "p1" = some 1 ∧
     (wrappedKill [("p1", 2)] "p1").countErrorLogged = false ∧
     (wrappedKill [("p1", 2)] "p1").originalKillInvoked = true ∧
     lookupCount (wrappedKill (wrappedKill [("p1", 2)] "p1").newCount
       "p1").newCount "p1" = none ∧
     (wrappedKill (wrappedKill [("p1", 2)] "p1").newCount "p1").countErrorLogged =
       false ∧
     (wrappedKill (wrappedKill [("p1", 2)] "p1").newCount "p1").originalKillInvoked =
       true ∧
     (wrappedKill (wrappedKill (wrappedKill [("p1", 2)] "p1").newCount
       "p1").newCount "p1").countErrorLogged = true ∧
     lookupCount (wrappedKill (wrappedKill (wrappedKill [("p1", 2)] "p1").newCount
       "p1").newCount "p1").newCount "p1" = none ∧
     (wrappedKill (wrappedKill (wrappedKill [("p1", 2)] "p1").newCount
       "p1").newCount "p1").originalKillInvoked = true) :=
  ⟨rfl, c9_wrapper_decrements_every_invocation [("p1", 2)] "p1" rfl⟩

/-- Whenever `_wifiEnqueue` runs `_startAction` at all, the run it records
is exactly `_startAction` on that action. -/
theorem wifiEnqueue_started_cases (cfg : ThaliConfig) (m : CountMap)
    (a : PeerAction) (r : Bool) :
    (wifiEnqueue cfg m a r).started = none ∨
    (wifiEnqueue cfg m a r).started = some (startAction cfg a r) := by
  by_cases ht : a.actionType = replicationActionType
  · rcases hcount : lookupCount m a.peerIdentifier with _ | n
    · right; simp [wifiEnqueue, ht, hcount]
    · rcases n with _ | _ | _ | k
      · right; simp [wifiEnqueue, ht, hcount]
      · right; simp [wifiEnqueue, ht, hcount]
      · left; simp [wifiEnqueue, ht, hcount]
      · right; simp [wifiEnqueue, ht, hcount]
  · right; simp [wifiEnqueue, ht]

/-- C10: every action the WiFi (unconstrained-parallel) path starts is
started with an agent configured with exactly: keep-alive enabled, a
keep-alive interval of half the configured transport timeout, unlimited
total sockets (Infinity, modelled as `none`), a free-socket cache bounded
at 256, the configured supported PSK cipher set, and the PSK identity and
key read off that action. -/
theorem c10_agent_configuration (cfg : ThaliConfig) (m : CountMap)
    (a : PeerAction) (r : Bool) (run : StartRun)
    (h : (wifiEnqueue cfg m a r).started = some run) :
    run.agent.keepAlive = true ∧
    run.agent.keepAliveMsecs = cfg.tcpTimeoutWifi / 2 ∧
    run.agent.maxSockets = none ∧
    run.agent.maxFreeSockets = 256 ∧
    run.agent.ciphers = cfg.supportedPskCiphers ∧
    run.agent.pskIdentity = a.pskIdentity ∧
    run.agent.pskKey = a.pskKey := by
  rcases wifiEnqueue_started_cases cfg m a r with hn | hs
  · rw [hn] at h
    exact absurd h (by simp)
  · rw [hs] at h
    injection h with h'
    subst h'
    exact ⟨rfl, rfl, rfl, rfl, rfl, rfl, rfl⟩

/-- Witness for C10 on a concrete started action. -/
theorem c10_agent_configuration_witness :
    (wifiEnqueue cfgEx [] notifActionEx false).started =
      some (startAction cfgEx notifActionEx false) ∧
    ((startAction cfgEx notifActionEx false).agent.keepAlive = true ∧
     (startAction cfgEx notifActionEx false).agent.keepAliveMsecs =
       cfgEx.tcpTimeoutWifi / 2 ∧
     (startAction cfgEx notifActionEx false).agent.maxSockets = none ∧
     (startAction cfgEx notifActionEx false).agent.maxFreeSockets = 256 ∧
     (startAction cfgEx notifActionEx false).agent.ciphers =
       cfgEx.supportedPskCiphers ∧
     (startAction cfgEx notifActionEx false).agent.pskIdentity =
       notifActionEx.pskIdentity ∧
     (startAction cfgEx notifActionEx false).agent.pskKey =
       notifActionEx.pskKey) :=
  ⟨by decide, c10_agent_configuration cfgEx [] notifActionEx false
    (startAction cfgEx notifActionEx false) (by decide)⟩

end Thali
